import Mathlib

/-!
Verification of the `Area_calc` repository: a shallow embedding of the
numeric-validation and dual-precision area-computation pipeline found in
`src/area_calc/` (validation.py, base.py, circle.py, triangle.py) and the
legacy module `src/figures.py`, together with theorems settling the frozen
claims about the natural-language specification.

Modelling conventions:
* Python floats are modelled by their exact values.  Every Python float is a
  dyadic rational, hence an exact finite decimal, so float values are carried
  as `Dec` (an integer mantissa with a power-of-ten exponent) and float
  arithmetic is modelled exactly.  The claims checked here concern branch
  selection, error ordering, tolerance checks on small integers, and decimal
  arithmetic, none of which depend on binary rounding of float operations;
  the only float division in the library is by the literal `2`, which is
  exact.
* `decimal.Decimal` values are likewise a mantissa/exponent pair, with
  context rounding implemented as round-half-even on the mantissa, the
  default rounding of Python's `decimal` module.
* Fallible Python code is modelled in `Except PyError`.
* Attribute lookup is modelled explicitly where it matters: the class and
  instance attribute names are transcribed from the source files, and a
  method call is guarded by membership of the method name in those tables,
  which is how the `self.detect_decimal` calls in `area_calc` are settled.
-/

set_option autoImplicit false

namespace AreaCalc

/-- An exact decimal number: the value `m * 10 ^ e`.  Used both for
`decimal.Decimal` values and for the exact values of Python floats. -/
structure Dec where
  m : Int
  e : Int
  deriving DecidableEq, Repr

instance {ε α : Type} [DecidableEq ε] [DecidableEq α] : DecidableEq (Except ε α) := fun x y =>
  match x, y with
  | .ok a, .ok b =>
    if h : a = b then .isTrue (h ▸ rfl) else .isFalse (fun he => h (Except.ok.inj he))
  | .error a, .error b =>
    if h : a = b then .isTrue (h ▸ rfl) else .isFalse (fun he => h (Except.error.inj he))
  | .ok _, .error _ => .isFalse (fun he => Except.noConfusion he)
  | .error _, .ok _ => .isFalse (fun he => Except.noConfusion he)

/-! ### Exact decimal arithmetic (the value level of floats and decimals) -/

/-- The two mantissas brought to the common (smaller) exponent, so that the
pair compares like the underlying values. -/
def decScaledPair (a b : Dec) : Int × Int :=
  (a.m * (10 : Int) ^ (a.e - min a.e b.e).toNat,
   b.m * (10 : Int) ^ (b.e - min a.e b.e).toNat)

/-- Value-level `a <= b` on decimals. -/
def decLE (a b : Dec) : Bool :=
  decide ((decScaledPair a b).1 ≤ (decScaledPair a b).2)

/-- Value-level `a < b` on decimals. -/
def decLT (a b : Dec) : Bool :=
  decide ((decScaledPair a b).1 < (decScaledPair a b).2)

/-- Value-level `a == b` on decimals (`Decimal.__eq__` and float equality
compare values, not representations). -/
def decNumEq (a b : Dec) : Bool :=
  decide ((decScaledPair a b).1 = (decScaledPair a b).2)

/-- Exact addition. -/
def decAddExact (a b : Dec) : Dec :=
  ⟨(decScaledPair a b).1 + (decScaledPair a b).2, min a.e b.e⟩

/-- Exact subtraction. -/
def decSubExact (a b : Dec) : Dec :=
  ⟨(decScaledPair a b).1 - (decScaledPair a b).2, min a.e b.e⟩

/-- Exact multiplication. -/
def decMulExact (a b : Dec) : Dec := ⟨a.m * b.m, a.e + b.e⟩

/-- Absolute value. -/
def decAbs (d : Dec) : Dec := if d.m < 0 then ⟨-d.m, d.e⟩ else d

/-- Value-level binary maximum. -/
def decMax (a b : Dec) : Dec := if decLE a b then b else a

/-- Division of decimals.  In every call site of the library the denominator
is the literal `2`, and halving is exact (`m / 2 = 5 m / 10`); other
denominators do not occur on the modelled paths. -/
def decDiv (a b : Dec) : Dec :=
  if decNumEq b ⟨2, 0⟩ then ⟨a.m * 5, a.e - 1⟩ else ⟨0, 0⟩

/-- Exact sum of a list of decimals, left to right from `0`, as the
built-in `sum` computes it. -/
def decSumExact (ds : List Dec) : Dec :=
  ds.foldl (fun acc d => decAddExact acc d) ⟨0, 0⟩

/-! ### Decimal context arithmetic

Python's `decimal` module rounds every arithmetic result to the context
precision (number of significant digits) using `ROUND_HALF_EVEN` by default.
Both `area` methods run their decimal branch under `localcontext()` with
`ctx.prec = 100`. -/

/-- Count of base-10 digits, by fuel recursion (the fuel `n + 1` always
suffices since the argument shrinks by a factor of 10 each step). -/
def digitsAux : ℕ → ℕ → ℕ
  | 0, _ => 0
  | fuel + 1, n => if n = 0 then 0 else digitsAux fuel (n / 10) + 1

/-- Number of significant base-10 digits of a decimal coefficient
(`0` has one digit, matching `Decimal` coefficient length). -/
def decNumDigits (n : ℕ) : ℕ :=
  max 1 (digitsAux (n + 1) n)

/-- Round a non-negative coefficient to `prec` significant digits, half-even.
Returns the rounded coefficient and the count of dropped digits. -/
def roundHalfEvenMag (prec : ℕ) (m : ℕ) : ℕ × ℕ :=
  let d := decNumDigits m
  if d ≤ prec then (m, 0)
  else
    let k := d - prec
    let p := 10 ^ k
    let q := m / p
    let r := m % p
    let half := 5 * 10 ^ (k - 1)
    (if half < r ∨ (r = half ∧ q % 2 = 1) then q + 1 else q, k)

/-- Context rounding of a decimal to `prec` significant digits
(`ROUND_HALF_EVEN`, applied to the magnitude). -/
def ctxRound (prec : ℕ) (d : Dec) : Dec :=
  if 0 ≤ d.m then
    let qk := roundHalfEvenMag prec d.m.toNat
    ⟨(qk.1 : Int), d.e + (qk.2 : Int)⟩
  else
    let qk := roundHalfEvenMag prec (-d.m).toNat
    ⟨-(qk.1 : Int), d.e + (qk.2 : Int)⟩

/-- Decimal multiplication under a context of `prec` significant digits:
exact product, then rounding. -/
def ctxMul (prec : ℕ) (a b : Dec) : Dec := ctxRound prec (decMulExact a b)

/-- `d ** 2` under a context of `prec` significant digits: `Decimal` power
with an integer exponent is correctly rounded, so the square is the exact
product rounded once. -/
def ctxSquare (prec : ℕ) (d : Dec) : Dec := ctxMul prec d d

/-- Decimal addition under a context of `prec` significant digits. -/
def ctxAdd (prec : ℕ) (a b : Dec) : Dec := ctxRound prec (decAddExact a b)

/-- Decimal subtraction under a context of `prec` significant digits. -/
def ctxSub (prec : ℕ) (a b : Dec) : Dec := ctxRound prec (decSubExact a b)

/-- Division of a decimal by exactly `Decimal(2)` under a context of `prec`
significant digits: the exact half rounded once, which is the correctly
rounded quotient. -/
def ctxHalf (prec : ℕ) (d : Dec) : Dec :=
  ctxRound prec ⟨d.m * 5, d.e - 1⟩

/-- `sum(...)` over a list of decimals under a context of `prec` significant
digits (the built-in starts from `0` and adds left to right, each addition
context-rounded). -/
def decSum (prec : ℕ) (ds : List Dec) : Dec :=
  ds.foldl (fun acc d => ctxAdd prec acc d) ⟨0, 0⟩

/-! ### Python values -/

/-- Python runtime values that can reach this library: ints, bools, floats
(carried by their exact decimal value), `Decimal`s and strings. -/
inductive PyVal where
  | vInt (n : Int)
  | vBool (b : Bool)
  | vFloat (d : Dec)
  | vDec (d : Dec)
  | vStr (s : String)
  deriving DecidableEq, Repr

/-- The runtime type tag, as `type(x)` sees it: `type(True)` is `bool`,
not `int`, even though `bool` subclasses `int`. -/
inductive PyType where
  | tInt
  | tBool
  | tFloat
  | tDec
  | tStr
  deriving DecidableEq, Repr

def pyType : PyVal → PyType
  | .vInt _ => .tInt
  | .vBool _ => .tBool
  | .vFloat _ => .tFloat
  | .vDec _ => .tDec
  | .vStr _ => .tStr

/-- The exceptions raised by the library. -/
inductive PyError where
  | valueError (msg : String)
  | typeError (msg : String)
  | attributeError (msg : String)
  | notImplementedError (msg : String)
  deriving DecidableEq, Repr

/-- Numeric value of a Python value, as Python's comparison operators and
arithmetic see it.  Strings never reach a numeric operation in the modelled
code paths (they are coerced or rejected first). -/
def toDec : PyVal → Dec
  | .vInt n => ⟨n, 0⟩
  | .vBool b => ⟨if b then 1 else 0, 0⟩
  | .vFloat d => d
  | .vDec d => d
  | .vStr _ => ⟨0, 0⟩

def isStr : PyVal → Bool
  | .vStr _ => true
  | _ => false

def isDec : PyVal → Bool
  | .vDec _ => true
  | _ => false

/-- Python `str.isdigit` restricted to ASCII: non-empty and all digits. -/
def strIsDigit (s : String) : Bool :=
  !s.data.isEmpty && s.data.all Char.isDigit

/-- Numeric value of a digit string, most significant digit first. -/
def digitsToNat (cs : List Char) : ℕ :=
  cs.foldl (fun acc c => 10 * acc + (c.toNat - 48)) 0

/-- `float(s)` for a digit-only string: its numeric value (exact for the
modelled inputs). -/
def coerceStr : PyVal → PyVal
  | .vStr s => .vFloat ⟨(digitsToNat s.data : Int), 0⟩
  | v => v

/-- `Decimal(x)` applied to a non-`Decimal` (left unchanged when already a
`Decimal`), as in `base.py` lines 92-97 and the `area` bodies: ints convert
exactly, and `Decimal(float)` yields the float's exact value, which is the
value the model already carries.  Strings cannot reach these conversion
sites. -/
def decOfNonDec (v : PyVal) : Dec := toDec v

def decOfVal (v : PyVal) : PyVal := .vDec (decOfNonDec v)

/-! ### Parameter validation (`src/area_calc/validation.py`) -/

/-- The tuple `(int, float, Decimal, str)` of `validation.py` line 31. -/
def validTypes : List PyType := [.tInt, .tFloat, .tDec, .tStr]

/-- One disjunct of the type check of `validate_params`
(`validation.py` lines 29-42): exact runtime-type mismatch, or a string with
a non-digit character. -/
def badParam (v : PyVal) : Bool :=
  !(validTypes.contains (pyType v)) ||
    (match v with
     | .vStr s => !strIsDigit s
     | _ => false)

def typeErrMsg : String :=
  "All parameters must be: int, float, Decimal or string where all characters are digits."

/-- `area_calc.validation.validate_params`, transcribed from
`src/area_calc/validation.py` lines 26-52: presence check, then type check,
then string coercion (note: the kwargs dict comprehension keeps only the
string-valued entries), then positivity check. -/
def validate_params (args : List PyVal) (kwargs : List (String × PyVal)) :
    Except PyError (List PyVal × List (String × PyVal)) :=
  if args.isEmpty && kwargs.isEmpty then
    .error (.valueError "No parameters provided.")
  else if args.any badParam || kwargs.any (fun kv => badParam kv.2) then
    .error (.typeError typeErrMsg)
  else
    let p :=
      if args.any isStr || kwargs.any (fun kv => isStr kv.2) then
        (args.map coerceStr,
         (kwargs.filter (fun kv => isStr kv.2)).map (fun kv => (kv.1, coerceStr kv.2)))
      else (args, kwargs)
    if p.1.any (fun v => decLE (toDec v) ⟨0, 0⟩) ||
        p.2.any (fun kv => decLE (toDec kv.2) ⟨0, 0⟩) then
      .error (.valueError "All parameters must be positive.")
    else
      .ok p

/-! ### FigureBase (`src/area_calc/base.py`) -/

/-- `FigureBase.has_decimal` (`base.py` lines 102-115): true iff any
parameter is a `Decimal` by an `isinstance` check. -/
def has_decimal (args : List PyVal) (kwargs : List (String × PyVal)) : Bool :=
  args.any isDec || kwargs.any (fun kv => isDec kv.2)

/-- `figures.FigureBase.detect_decimal` (`src/figures.py` lines 54-67):
identical body to `has_decimal`, but defined only on the legacy class. -/
def detect_decimal (args : List PyVal) (kwargs : List (String × PyVal)) : Bool :=
  args.any isDec || kwargs.any (fun kv => isDec kv.2)

/-- The state a successful `FigureBase.__init__` leaves behind:
the stored `self.args` and `self.kwargs`, and `self.precision`
(which is only assigned on the decimal branch). -/
structure FigState where
  args : List PyVal
  kwargs : List (String × PyVal)
  precision : Option PyVal
  deriving DecidableEq, Repr

/-- `FigureBase.__init__` (`base.py` lines 78-100): validate, then if any
validated parameter is a `Decimal`, upgrade every stored parameter to
`Decimal` and record `self.precision = kwargs.get("precision", 100)`
(read from the raw kwargs). -/
def figureBaseInit (args : List PyVal) (kwargs : List (String × PyVal)) :
    Except PyError FigState :=
  match validate_params args kwargs with
  | .error e => .error e
  | .ok vp =>
    if has_decimal vp.1 vp.2 then
      .ok { args := vp.1.map decOfVal,
            kwargs := vp.2.map (fun kv => (kv.1, decOfVal kv.2)),
            precision := some ((kwargs.lookup "precision").getD (.vInt 100)) }
    else
      .ok { args := vp.1, kwargs := vp.2, precision := none }

/-! ### Sorting

`Triangle.__init__` stores `sorted(self.args)`.  Python's `sorted` is a
stable sort by `<` over numeric values; stable insertion sort computes the
same list. -/

/-- The comparison `sorted` uses on figure parameters: value-level order. -/
def valLE (x y : PyVal) : Prop := decLE (toDec x) (toDec y) = true

instance : DecidableRel valLE := fun x y =>
  inferInstanceAs (Decidable (decLE (toDec x) (toDec y) = true))

/-- `sorted(...)` on figure parameters: stable insertion sort by value. -/
def sortVals (l : List PyVal) : List PyVal :=
  l.insertionSort valLE

/-! ### Attribute tables

To settle the `self.detect_decimal` calls, attribute lookup on the
`area_calc` classes is modelled by name: these lists transcribe, verbatim,
the method names defined by each class body and the instance attribute
names assigned in the constructors. -/

/-- Methods of `area_calc.base.FigureBase`. -/
def acFigureBaseMethods : List String := ["__init__", "has_decimal", "area"]

/-- Methods of `area_calc.circle.Circle`. -/
def acCircleMethods : List String := ["__init__", "area"]

/-- Methods of `area_calc.triangle.Triangle`. -/
def acTriangleMethods : List String :=
  ["__init__", "is_right", "_get_right_triangle_area", "_squared_herons_area", "area"]

/-- Instance attributes a constructed `area_calc` `Circle` carries. -/
def acCircleInstanceAttrs : List String := ["args", "kwargs", "precision", "radius"]

/-- Instance attributes a constructed `area_calc` `Triangle` carries. -/
def acTriangleInstanceAttrs : List String := ["args", "kwargs", "precision", "sides"]

/-- `hasattr` on a constructed `area_calc` `Circle`: instance attributes,
then the class, then the base class. -/
def acCircleHasAttr (name : String) : Bool :=
  acCircleInstanceAttrs.contains name || acCircleMethods.contains name ||
    acFigureBaseMethods.contains name

/-- `hasattr` on a constructed `area_calc` `Triangle`. -/
def acTriangleHasAttr (name : String) : Bool :=
  acTriangleInstanceAttrs.contains name || acTriangleMethods.contains name ||
    acFigureBaseMethods.contains name

/-! ### Area formulas -/

/-- `math.pi`: the IEEE-754 double nearest to pi, whose exact value is
3.141592653589793115997963468544185161590576171875
= 3141592653589793115997963468544185161590576171875 * 10^-48. -/
def mathPi : Dec :=
  ⟨3141592653589793115997963468544185161590576171875, -48⟩

/-- The 101-significant-digit literal of pi in `circle.py` lines 52-55 and
`figures.py` lines 125-128 (the two string halves concatenated), as parsed
by `Decimal(...)`: coefficient with exponent -100. -/
def pi101 : Dec :=
  ⟨31415926535897932384626433832795028841971693993751058209749445923078164062862089986280348253421170679,
   -100⟩

/-- The common body of `Circle.area` (`src/area_calc/circle.py` lines 29-57
and `src/figures.py` lines 102-130, which are identical): if
`detect_decimal(self.radius)` (an `isinstance(..., Decimal)` check) then
`pi_101 * self.radius ** 2` under a 100-digit context, else
`math.pi * self.radius ** 2` in float arithmetic. -/
def circleAreaBody (radius : PyVal) : PyVal :=
  match radius with
  | .vDec d => .vDec (ctxMul 100 pi101 (ctxSquare 100 d))
  | r => .vFloat (decMulExact mathPi (decMulExact (toDec r) (toDec r)))

/-- `Triangle._get_right_triangle_area` (`triangle.py` lines 131-154), float
instance: `catheti[0] * catheti[1] / denominator` (the denominator is `2`
at every call site). -/
def get_right_triangle_area (catheti : List Dec) (denominator : Dec) : Dec :=
  decDiv (decMulExact (catheti.getD 0 ⟨0, 0⟩) (catheti.getD 1 ⟨0, 0⟩)) denominator

/-- `Triangle._squared_herons_area` (`triangle.py` lines 156-182), float
instance: `hp * (hp - sides[0]) * (hp - sides[1]) * (hp - sides[2])`. -/
def squared_herons_area (sides : List Dec) (half_perimeter : Dec) : Dec :=
  decMulExact
    (decMulExact
      (decMulExact half_perimeter (decSubExact half_perimeter (sides.getD 0 ⟨0, 0⟩)))
      (decSubExact half_perimeter (sides.getD 1 ⟨0, 0⟩)))
    (decSubExact half_perimeter (sides.getD 2 ⟨0, 0⟩))

/-- `Triangle._get_right_triangle_area`, `Decimal` instance, under the
100-digit context of the caller: product then division by `Decimal(2)`,
each context-rounded. -/
def decRightArea (ds : List Dec) : Dec :=
  ctxHalf 100 (ctxMul 100 (ds.getD 0 ⟨0, 0⟩) (ds.getD 1 ⟨0, 0⟩))

/-- `Triangle._squared_herons_area`, `Decimal` instance, under the 100-digit
context of the caller: the left-associated product with each binary
operation context-rounded. -/
def decHeronSq (ds : List Dec) (hp : Dec) : Dec :=
  ctxMul 100
    (ctxMul 100 (ctxMul 100 hp (ctxSub 100 hp (ds.getD 0 ⟨0, 0⟩)))
      (ctxSub 100 hp (ds.getD 1 ⟨0, 0⟩)))
    (ctxSub 100 hp (ds.getD 2 ⟨0, 0⟩))

/-- The result of a triangle `area` body: either a value returned directly,
or `sqrtVal x` for a final `math.sqrt(x)` / `x.sqrt()` applied to the
squared Heron value `x`. -/
inductive AreaResult where
  | val (v : PyVal)
  | sqrtVal (x : PyVal)
  deriving DecidableEq, Repr

/-! ### Circle (`src/area_calc/circle.py`) -/

/-- A constructed `area_calc.circle.Circle`: the base state plus
`self.radius`. -/
structure CircleState where
  base : FigState
  radius : PyVal
  deriving DecidableEq, Repr

/-- `Circle.__init__` (`circle.py` lines 18-27): `super().__init__(radius)`
then `self.radius = self.args[0] if self.args else self.kwargs.get('radius', ...)`.
The radius always reaches `validate_params` positionally, so `self.args` has
exactly one element and the kwargs fallback of line 27 is unreachable. -/
def circleInitAC (radius : PyVal) : Except PyError CircleState :=
  match figureBaseInit [radius] [] with
  | .error e => .error e
  | .ok st => .ok ⟨st, st.args.getD 0 (.vInt 0)⟩

/-- The message of the `AttributeError` Python raises for
`self.detect_decimal` on an `area_calc` `Circle` (Python's own message puts
the class and attribute names in quotes). -/
def circleAttrErrMsg : String :=
  "Circle object has no attribute detect_decimal"

/-- `Circle.area` (`circle.py` lines 29-57).  The body's first expression is
`self.detect_decimal(self.radius)`: attribute lookup on the name
`detect_decimal` against the instance and class tables; on failure Python
raises `AttributeError` before any arithmetic.  If the lookup succeeded it
would run `circleAreaBody` (the documented formula, which is what
`figures.py` line 122 runs via its `detect_decimal`). -/
def circleAreaAC (c : CircleState) : Except PyError PyVal :=
  if acCircleHasAttr "detect_decimal" then
    .ok (circleAreaBody c.radius)
  else
    .error (.attributeError circleAttrErrMsg)

/-! ### Triangle (`src/area_calc/triangle.py`) -/

/-- A constructed `area_calc.triangle.Triangle`: the base state plus
`self.sides`. -/
structure TriState where
  base : FigState
  sides : List PyVal
  deriving DecidableEq, Repr

/-- `Triangle.__init__` (`triangle.py` lines 103-119):
`super().__init__(*sides)`, then the side-count check
(`len(self.args) != 3`, raising before any triangle-inequality check), then
`self.sides = sorted(self.args)`, then the triangle inequality on the two
smaller sides against the largest. -/
def triangleInitAC (sides : List PyVal) : Except PyError TriState :=
  match figureBaseInit sides [] with
  | .error e => .error e
  | .ok st =>
    if st.args.length = 3 then
      let s := sortVals st.args
      if decLE (decAddExact (toDec (s.getD 0 (.vInt 0))) (toDec (s.getD 1 (.vInt 0))))
          (toDec (s.getD 2 (.vInt 0))) then
        .error (.valueError "Triangle is not valid: sum of two sides must be greater than third.")
      else
        .ok ⟨st, s⟩
    else
      .error (.valueError "Triangle must have 3 sides.")

/-- `math.isclose` default relative tolerance `1e-9`. -/
def relTol : Dec := ⟨1, -9⟩

/-- `math.isclose` with its default tolerances
(`rel_tol = 1e-9`, `abs_tol = 0.0`):
`abs(a - b) <= max(rel_tol * max(abs(a), abs(b)), abs_tol)`. -/
def isclose (a b : Dec) : Bool :=
  decLE (decAbs (decSubExact a b))
    (decMax (decMulExact relTol (decMax (decAbs a) (decAbs b))) ⟨0, 0⟩)

/-- The square of a side as `side ** 2` computes it (exact for the modelled
values). -/
def decSq (d : Dec) : Dec := decMulExact d d

/-- `Triangle.is_right` (`triangle.py` lines 121-129):
`math.isclose(self.sides[0] ** 2 + self.sides[1] ** 2, self.sides[2] ** 2)`. -/
def is_right (t : TriState) : Bool :=
  isclose
    (decAddExact (decSq (toDec (t.sides.getD 0 (.vInt 0))))
      (decSq (toDec (t.sides.getD 1 (.vInt 0)))))
    (decSq (toDec (t.sides.getD 2 (.vInt 0))))

/-- The body `Triangle.area` would run after resolving `detect_decimal`
(`triangle.py` lines 204-213; identical in `figures.py` lines 270-279):
on the decimal branch (all stored sides are already `Decimal` after the
constructor upgrade) convert, then dispatch on the precomputed right-angle
flag; the non-right branches end in a square root, recorded symbolically. -/
def triangleAreaBody (sides : List PyVal) (isR : Bool) : AreaResult :=
  if detect_decimal sides [] then
    let ds := sides.map decOfNonDec
    if isR then
      .val (.vDec (decRightArea ds))
    else
      .sqrtVal (.vDec (decHeronSq ds (ctxHalf 100 (decSum 100 ds))))
  else
    let qs := sides.map toDec
    if isR then
      .val (.vFloat (get_right_triangle_area qs ⟨2, 0⟩))
    else
      .sqrtVal (.vFloat (squared_herons_area qs (decDiv (decSumExact qs) ⟨2, 0⟩)))

/-- The message of the `AttributeError` for `self.detect_decimal` on an
`area_calc` `Triangle`. -/
def triangleAttrErrMsg : String :=
  "Triangle object has no attribute detect_decimal"

/-- `Triangle.area` (`triangle.py` lines 184-213): first
`is_right = self.is_right()` (line 202), then the lookup of
`self.detect_decimal` (line 204), which raises `AttributeError` when the
name resolves against neither the instance nor the `area_calc` class
hierarchy. -/
def triangleAreaAC (t : TriState) : Except PyError AreaResult :=
  let isR := is_right t
  if acTriangleHasAttr "detect_decimal" then
    .ok (triangleAreaBody t.sides isR)
  else
    .error (.attributeError triangleAttrErrMsg)

/-! ### Legacy `src/figures.py` Circle

The legacy module's `FigureBase` does define `detect_decimal`, so its
`Circle.area` actually reaches the documented formulas.  Its constructor
validates only presence and positivity and stores the radius unchanged. -/

/-- Methods of `figures.FigureBase` (`figures.py` lines 20-78). -/
def figFigureBaseMethods : List String := ["__init__", "detect_decimal", "area"]

/-- A constructed `figures.Circle`. -/
structure FCircle where
  radius : PyVal
  deriving DecidableEq, Repr

/-- `figures.Circle.__init__` (`figures.py` lines 90-100):
`super().__init__(radius)` checks presence (always satisfied here) and
positivity, then the radius is stored unchanged. -/
def figuresCircleInit (radius : PyVal) : Except PyError FCircle :=
  if decLE (toDec radius) ⟨0, 0⟩ then
    .error (.valueError "All parameters must be positive.")
  else
    .ok ⟨radius⟩

/-- `figures.Circle.area` (`figures.py` lines 102-130): here
`self.detect_decimal` resolves (it is listed in `figFigureBaseMethods`), so
the body runs: the decimal branch iff the radius is a `Decimal`. -/
def figuresCircleArea (c : FCircle) : PyVal :=
  circleAreaBody c.radius

/-! ### Value semantics of the exact decimal operations

`decToQ` interprets a `Dec` as a rational number; the lemmas below let the
claims be stated over actual numeric values rather than over mantissa
representations. -/

/-- The rational value of a decimal. -/
def decToQ (d : Dec) : ℚ := (d.m : ℚ) * (10 : ℚ) ^ d.e

lemma ten_zpow_pos (e : ℤ) : (0 : ℚ) < (10 : ℚ) ^ e :=
  zpow_pos (by norm_num) e

lemma decScaledPair_fst (a b : Dec) :
    ((decScaledPair a b).1 : ℚ) * (10 : ℚ) ^ (min a.e b.e) = decToQ a := by
  unfold decScaledPair decToQ
  push_cast
  rw [mul_assoc, ← zpow_natCast (10 : ℚ) (a.e - min a.e b.e).toNat,
    Int.toNat_of_nonneg (by omega), ← zpow_add₀ (by norm_num : (10 : ℚ) ≠ 0)]
  norm_num

lemma decScaledPair_snd (a b : Dec) :
    ((decScaledPair a b).2 : ℚ) * (10 : ℚ) ^ (min a.e b.e) = decToQ b := by
  unfold decScaledPair decToQ
  push_cast
  rw [mul_assoc, ← zpow_natCast (10 : ℚ) (b.e - min a.e b.e).toNat,
    Int.toNat_of_nonneg (by omega), ← zpow_add₀ (by norm_num : (10 : ℚ) ≠ 0)]
  norm_num

lemma decLE_iff (a b : Dec) : decLE a b = true ↔ decToQ a ≤ decToQ b := by
  unfold decLE
  rw [decide_eq_true_eq, ← decScaledPair_fst a b, ← decScaledPair_snd a b,
    mul_le_mul_right (ten_zpow_pos (min a.e b.e)), Int.cast_le]

lemma decLT_iff (a b : Dec) : decLT a b = true ↔ decToQ a < decToQ b := by
  unfold decLT
  rw [decide_eq_true_eq, ← decScaledPair_fst a b, ← decScaledPair_snd a b,
    mul_lt_mul_right (ten_zpow_pos (min a.e b.e)), Int.cast_lt]

lemma decNumEq_iff (a b : Dec) : decNumEq a b = true ↔ decToQ a = decToQ b := by
  unfold decNumEq
  rw [decide_eq_true_eq, ← decScaledPair_fst a b, ← decScaledPair_snd a b,
    mul_left_inj' (ne_of_gt (ten_zpow_pos (min a.e b.e))), Int.cast_inj]

lemma decToQ_addExact (a b : Dec) : decToQ (decAddExact a b) = decToQ a + decToQ b := by
  unfold decAddExact
  rw [show decToQ ⟨(decScaledPair a b).1 + (decScaledPair a b).2, min a.e b.e⟩ =
      (((decScaledPair a b).1 + (decScaledPair a b).2 : Int) : ℚ) * (10 : ℚ) ^ (min a.e b.e)
      from rfl]
  push_cast
  rw [add_mul, decScaledPair_fst, decScaledPair_snd]

lemma decToQ_subExact (a b : Dec) : decToQ (decSubExact a b) = decToQ a - decToQ b := by
  unfold decSubExact
  rw [show decToQ ⟨(decScaledPair a b).1 - (decScaledPair a b).2, min a.e b.e⟩ =
      (((decScaledPair a b).1 - (decScaledPair a b).2 : Int) : ℚ) * (10 : ℚ) ^ (min a.e b.e)
      from rfl]
  push_cast
  rw [sub_mul, decScaledPair_fst, decScaledPair_snd]

lemma decToQ_mulExact (a b : Dec) : decToQ (decMulExact a b) = decToQ a * decToQ b := by
  unfold decMulExact decToQ
  push_cast
  rw [zpow_add₀ (by norm_num : (10 : ℚ) ≠ 0)]
  ring

lemma decToQ_abs (d : Dec) : decToQ (decAbs d) = |decToQ d| := by
  unfold decAbs
  by_cases h : d.m < 0
  · rw [if_pos h]
    have hneg : decToQ d < 0 := by
      unfold decToQ
      exact mul_neg_of_neg_of_pos (by exact_mod_cast h) (ten_zpow_pos d.e)
    rw [abs_of_neg hneg]
    show ((-d.m : Int) : ℚ) * (10 : ℚ) ^ d.e = -decToQ d
    unfold decToQ
    push_cast
    ring
  · rw [if_neg h]
    have hpos : 0 ≤ decToQ d := by
      unfold decToQ
      exact mul_nonneg (by exact_mod_cast not_lt.mp h) (ten_zpow_pos d.e).le
    rw [abs_of_nonneg hpos]

lemma decToQ_max (a b : Dec) : decToQ (decMax a b) = max (decToQ a) (decToQ b) := by
  unfold decMax
  by_cases h : decLE a b
  · rw [if_pos h, max_eq_right ((decLE_iff a b).mp h)]
  · rw [if_neg h]
    have := (not_iff_not.mpr (decLE_iff a b)).mp h
    rw [max_eq_left (le_of_not_le (by simpa using this))]

lemma valLE_iff (x y : PyVal) : valLE x y ↔ decToQ (toDec x) ≤ decToQ (toDec y) :=
  decLE_iff (toDec x) (toDec y)

instance : IsTotal PyVal valLE :=
  ⟨fun x y => by
    rw [valLE_iff, valLE_iff]
    exact le_total _ _⟩

instance : IsTrans PyVal valLE :=
  ⟨fun _ _ _ h₁ h₂ => by
    rw [valLE_iff] at *
    exact le_trans h₁ h₂⟩

/-- The sides stored by a triangle are sorted ascending by value. -/
lemma sortVals_sorted (l : List PyVal) : (sortVals l).Sorted valLE :=
  List.sorted_insertionSort valLE l

/-! ### Definitions modelled from the specification's own words

These are compared against the source-derived definitions in the claims;
they are deliberately written from the natural-language text, not from the
code. -/

/-- From the spec (section 4.4): approximate equality of two values with
relative tolerance `1e-9` and absolute tolerance `0.0`, never exact
equality. -/
def specClose (x y : ℚ) : Prop :=
  |x - y| ≤ max (1 / 1000000000 * max |x| |y|) 0

/-- From the spec (section 4.3): the 101-significant-digit decimal literal
of pi as the specification text prints it
(`3.14159265358979323846264338327950288419716939937510582097494459230781640628898986280348253421170679`). -/
def specPi101 : Dec :=
  ⟨314159265358979323846264338327950288419716939937510582097494459230781640628898986280348253421170679,
   -98⟩

/-- From the spec (section 4.3): multiply the radius squared by the
101-digit pi literal under a 100-significant-digit decimal context and
return the decimal result. -/
def specDecimalCircleArea (pi : Dec) (r : Dec) : Dec :=
  ctxRound 100 (decMulExact pi (ctxRound 100 (decMulExact r r)))

/-- The source's `isclose` agrees with the spec's closeness predicate at the
level of values. -/
lemma isclose_iff_specClose (a b : Dec) :
    isclose a b = true ↔ specClose (decToQ a) (decToQ b) := by
  unfold isclose specClose
  rw [decLE_iff, decToQ_abs, decToQ_subExact, decToQ_max, decToQ_mulExact,
    decToQ_max, decToQ_abs, decToQ_abs]
  have hrel : decToQ relTol = 1 / 1000000000 := by
    unfold relTol decToQ
    norm_num
  have hz : decToQ ⟨0, 0⟩ = 0 := by
    unfold decToQ
    norm_num
  rw [hrel, hz]

lemma decToQ_negExp (m : Int) (k : ℕ) : decToQ ⟨m, -(k : ℤ)⟩ = (m : ℚ) / 10 ^ k := by
  unfold decToQ
  rw [zpow_neg, zpow_natCast, div_eq_mul_inv]

/-! ### Claims -/

set_option maxRecDepth 10000

/-- Claim C1: the claim says every figure built from standard-precision
inputs returns the documented formula value from `area()`; in particular
`Triangle(3,4,5).area() == 6.0` and `Circle(5).area()` is approximately
78.53981633974483.  The `area_calc` code instead raises `AttributeError`
on every `area()` call (the `self.detect_decimal` lookup fails), so the
claim describes the intent, not the code: this theorem evaluates the code
at the failing inputs `Circle(5).area()` and `Triangle(3,4,5).area()`, and
then shows the documented values are what the duplicated legacy body
(`figures.py`) and the stateless right-triangle formula produce, confirming
the intent the claim states. -/
theorem claimC1 :
    circleInitAC (.vInt 5) = .ok ⟨⟨[.vInt 5], [], none⟩, .vInt 5⟩ ∧
    circleAreaAC ⟨⟨[.vInt 5], [], none⟩, .vInt 5⟩ = .error (.attributeError circleAttrErrMsg) ∧
    triangleInitAC [.vInt 3, .vInt 4, .vInt 5] =
      .ok ⟨⟨[.vInt 3, .vInt 4, .vInt 5], [], none⟩, [.vInt 3, .vInt 4, .vInt 5]⟩ ∧
    triangleAreaAC ⟨⟨[.vInt 3, .vInt 4, .vInt 5], [], none⟩, [.vInt 3, .vInt 4, .vInt 5]⟩ =
      .error (.attributeError triangleAttrErrMsg) ∧
    figuresCircleArea ⟨.vInt 5⟩ = .vFloat (decMulExact mathPi ⟨25, 0⟩) ∧
    |decToQ (decMulExact mathPi ⟨25, 0⟩) - 7853981633974483 / 10 ^ 14| < 1 / 10 ^ 10 ∧
    is_right ⟨⟨[.vInt 3, .vInt 4, .vInt 5], [], none⟩, [.vInt 3, .vInt 4, .vInt 5]⟩ = true ∧
    decToQ (get_right_triangle_area [⟨3, 0⟩, ⟨4, 0⟩] ⟨2, 0⟩) = 6 := by
  refine ⟨by decide, by decide, by decide, by decide, by decide, ?_, by decide, ?_⟩
  · have h := (decLT_iff
      (decAbs (decSubExact (decMulExact mathPi ⟨25, 0⟩) ⟨7853981633974483, -14⟩)) ⟨1, -10⟩).mp
      (by decide)
    rw [decToQ_abs, decToQ_subExact] at h
    rw [show ((-14 : ℤ)) = -((14 : ℕ) : ℤ) from rfl,
      show ((-10 : ℤ)) = -((10 : ℕ) : ℤ) from rfl] at h
    rw [decToQ_negExp, decToQ_negExp] at h
    norm_num at h ⊢
    convert h using 2
  · rw [show get_right_triangle_area [⟨3, 0⟩, ⟨4, 0⟩] ⟨2, 0⟩ = (⟨60, -1⟩ : Dec) from by decide,
      show ((-1 : ℤ)) = -((1 : ℕ) : ℤ) from rfl, decToQ_negExp]
    norm_num

/-- Claim C2: on every successfully constructed `area_calc` `Circle` or
`Triangle`, `area()` fails with an attribute-lookup error before returning
any value, because both bodies invoke `self.detect_decimal` while the
`area_calc` hierarchy defines only `has_decimal` (`detect_decimal` exists
only on the legacy `figures.FigureBase`).  The last four conjuncts record
exactly that about the attribute tables. -/
theorem claimC2 :
    (∀ r c, circleInitAC r = .ok c →
      circleAreaAC c = .error (.attributeError circleAttrErrMsg)) ∧
    (∀ sides t, triangleInitAC sides = .ok t →
      triangleAreaAC t = .error (.attributeError triangleAttrErrMsg)) ∧
    acCircleHasAttr "detect_decimal" = false ∧
    acTriangleHasAttr "detect_decimal" = false ∧
    acFigureBaseMethods.contains "has_decimal" = true ∧
    figFigureBaseMethods.contains "detect_decimal" = true :=
  ⟨fun _ _ _ => rfl, fun _ _ _ => rfl, by decide, by decide, by decide, by decide⟩

/-- Claim C2 witness: `Circle(5)` and `Triangle(3, 4, 5)` construct
successfully and their `area()` raises `AttributeError`. -/
theorem claimC2_witness :
    circleInitAC (.vInt 5) = .ok ⟨⟨[.vInt 5], [], none⟩, .vInt 5⟩ ∧
    circleAreaAC ⟨⟨[.vInt 5], [], none⟩, .vInt 5⟩ = .error (.attributeError circleAttrErrMsg) ∧
    triangleInitAC [.vInt 3, .vInt 4, .vInt 5] =
      .ok ⟨⟨[.vInt 3, .vInt 4, .vInt 5], [], none⟩, [.vInt 3, .vInt 4, .vInt 5]⟩ ∧
    triangleAreaAC ⟨⟨[.vInt 3, .vInt 4, .vInt 5], [], none⟩, [.vInt 3, .vInt 4, .vInt 5]⟩ =
      .error (.attributeError triangleAttrErrMsg) :=
  ⟨by decide, claimC2.1 (.vInt 5) _ (by decide), by decide,
    claimC2.2.1 [.vInt 3, .vInt 4, .vInt 5] _ (by decide)⟩

/-- Claim C3 counterexample: the claim names a pi literal
(`...0781640628898986280348253421170679`, 99 significant digits) that differs
from the literal in the source (`...078164062862089986280348253421170679`,
true pi to 101 digits).  At radius `Decimal(1)` the decimal-branch area (as
run by `figures.Circle.area`; the `area_calc` `Circle.area` raises
`AttributeError` before reaching it) is the source literal rounded to 100
digits, which is numerically different from the value the claim's literal
prescribes. -/
theorem claimC3_counterexample :
    figuresCircleArea ⟨.vDec ⟨1, 0⟩⟩ =
      .vDec ⟨3141592653589793238462643383279502884197169399375105820974944592307816406286208998628034825342117068,
        -99⟩ ∧
    decNumEq
      ⟨3141592653589793238462643383279502884197169399375105820974944592307816406286208998628034825342117068,
        -99⟩
      specPi101 = false ∧
    decNumEq
      ⟨3141592653589793238462643383279502884197169399375105820974944592307816406286208998628034825342117068,
        -99⟩
      (specDecimalCircleArea specPi101 ⟨1, 0⟩) = false := by
  decide

/-- Claim C3 as amended: for every `figures.Circle` whose radius is a
positive `Decimal`, `area()` returns a `Decimal` equal to the product of the
radius squared and the source's 101-significant-digit pi literal
(`3.1415926535897932384626433832795028841971693993751058209749445923078164062862089986280348253421170679`),
computed under a 100-significant-digit precision context; the exported
`area_calc` `Circle.area` raises `AttributeError` instead (claim C2). -/
theorem claimC3 (r : Dec) (c : FCircle) (h : figuresCircleInit (.vDec r) = .ok c) :
    figuresCircleArea c = .vDec (specDecimalCircleArea pi101 r) ∧
    pyType (figuresCircleArea c) = .tDec := by
  unfold figuresCircleInit at h
  split at h
  · exact absurd h (by simp)
  · cases h
    exact ⟨rfl, rfl⟩

/-- Claim C3 witness: at radius `Decimal(5)` the construction succeeds and
the amended statement applies. -/
theorem claimC3_witness :
    figuresCircleInit (.vDec ⟨5, 0⟩) = .ok ⟨.vDec ⟨5, 0⟩⟩ ∧
    figuresCircleArea ⟨.vDec ⟨5, 0⟩⟩ = .vDec (specDecimalCircleArea pi101 ⟨5, 0⟩) :=
  ⟨by decide, (claimC3 ⟨5, 0⟩ ⟨.vDec ⟨5, 0⟩⟩ (by decide)).1⟩

/-- Claim C4: the claim says `validate_params` returns all supplied
parameters, replacing digit-only strings by their float value and leaving
everything else unchanged.  The code violates this: when any parameter is a
string, the kwargs dict comprehension keeps only string-valued entries, so
`validate_params(s="5", x=2)` drops `x` entirely (first two conjuncts);
only string-free inputs are returned intact (last conjunct). -/
theorem claimC4 :
    validate_params [] [("s", .vStr "5"), ("x", .vInt 2)] =
      .ok ([], [("s", .vFloat ⟨5, 0⟩)]) ∧
    validate_params [.vStr "5"] [("x", .vInt 2)] = .ok ([.vFloat ⟨5, 0⟩], []) ∧
    validate_params [.vInt 2] [("x", .vInt 3)] = .ok ([.vInt 2], [("x", .vInt 3)]) := by
  decide

/-- Claim C5: the claim says the checks run presence, then type, then sign,
and that `NonPositiveValue` is raised exactly when all parameters are
well-typed and some coerced value is nonpositive.  The first four conjuncts
confirm the ordering; the last two refute the "exactly when": in
`validate_params("5", x=-2)` every parameter is well-typed and `-2 <= 0`,
yet the call returns successfully because the string-coercion step dropped
the non-string kwarg before the sign check. -/
theorem claimC5 :
    validate_params [] [] = .error (.valueError "No parameters provided.") ∧
    validate_params [.vBool true, .vInt (-2)] [] = .error (.typeError typeErrMsg) ∧
    validate_params [.vStr "oops"] [("x", .vInt (-2))] = .error (.typeError typeErrMsg) ∧
    validate_params [.vInt (-2)] [] = .error (.valueError "All parameters must be positive.") ∧
    decToQ (toDec (.vInt (-2))) ≤ 0 ∧
    validate_params [.vStr "5"] [("x", .vInt (-2))] = .ok ([.vFloat ⟨5, 0⟩], []) := by
  refine ⟨by decide, by decide, by decide, by decide, ?_, by decide⟩
  norm_num [toDec, decToQ]

/-- Claim C6: every boolean-typed value, positional or named, makes
`validate_params` raise the `TypeError` of the type check, because the check
compares exact runtime types (`type(True)` is `bool`, not one of
`int`, `float`, `Decimal`, `str`). -/
theorem claimC6 (args : List PyVal) (kwargs : List (String × PyVal)) (b : Bool)
    (h : .vBool b ∈ args ∨ ∃ k, (k, .vBool b) ∈ kwargs) :
    validate_params args kwargs = .error (.typeError typeErrMsg) := by
  have hbad : badParam (.vBool b) = true := rfl
  have hpres : (args.isEmpty && kwargs.isEmpty) = false := by
    rcases h with h | ⟨k, h⟩
    · cases args with
      | nil => cases h
      | cons a as => simp
    · cases kwargs with
      | nil => cases h
      | cons kv kvs => simp
  have htype : (args.any badParam || kwargs.any (fun kv => badParam kv.2)) = true := by
    rcases h with h | ⟨k, h⟩
    · have h1 : args.any badParam = true := List.any_eq_true.mpr ⟨_, h, hbad⟩
      rw [h1, Bool.true_or]
    · have h1 : kwargs.any (fun kv => badParam kv.2) = true :=
        List.any_eq_true.mpr ⟨(k, .vBool b), h, hbad⟩
      rw [h1, Bool.or_true]
  unfold validate_params
  simp [hpres, htype]

/-- Claim C6 witness: a positional `True` and a named `False` are both
rejected with the type error. -/
theorem claimC6_witness :
    validate_params [.vBool true] [] = .error (.typeError typeErrMsg) ∧
    validate_params [] [("flag", .vBool false)] = .error (.typeError typeErrMsg) :=
  ⟨claimC6 [.vBool true] [] true (Or.inl (by simp)),
   claimC6 [] [("flag", .vBool false)] false (Or.inr ⟨"flag", by simp⟩)⟩

/-- Claim C7: after base validation, a `Triangle` with a parameter count
other than 3 fails with "Triangle must have 3 sides." before any
triangle-inequality check; with exactly 3 parameters the sides are sorted
ascending `a <= b <= c` and construction fails with the degenerate-shape
error exactly when `a + b <= c`; in particular `Triangle(3,4)` fails with
the count error and `Triangle(1,2,10)` with the degenerate error. -/
theorem claimC7 (sides : List PyVal) (st : FigState)
    (h : figureBaseInit sides [] = .ok st) :
    (st.args.length ≠ 3 →
      triangleInitAC sides = .error (.valueError "Triangle must have 3 sides.")) ∧
    (∀ a b c, sortVals st.args = [a, b, c] →
      (decToQ (toDec a) ≤ decToQ (toDec b) ∧ decToQ (toDec b) ≤ decToQ (toDec c)) ∧
      (decToQ (toDec a) + decToQ (toDec b) ≤ decToQ (toDec c) →
        triangleInitAC sides =
          .error (.valueError "Triangle is not valid: sum of two sides must be greater than third.")) ∧
      (decToQ (toDec c) < decToQ (toDec a) + decToQ (toDec b) →
        triangleInitAC sides = .ok ⟨st, [a, b, c]⟩)) ∧
    triangleInitAC [.vInt 3, .vInt 4] = .error (.valueError "Triangle must have 3 sides.") ∧
    triangleInitAC [.vInt 1, .vInt 2, .vInt 10] =
      .error (.valueError "Triangle is not valid: sum of two sides must be greater than third.") := by
  refine ⟨?_, ?_, by decide, by decide⟩
  · intro hlen
    simp only [triangleInitAC, h]
    rw [if_neg hlen]
  · intro a b c hs
    have hlen : st.args.length = 3 := by
      have hp := (List.perm_insertionSort valLE st.args).length_eq
      rw [show List.insertionSort valLE st.args = sortVals st.args from rfl, hs] at hp
      simpa using hp.symm
    have hsorted := sortVals_sorted st.args
    rw [hs] at hsorted
    have hab : valLE a b := (List.pairwise_cons.mp hsorted).1 b (by simp)
    have hbc : valLE b c :=
      (List.pairwise_cons.mp (List.pairwise_cons.mp hsorted).2).1 c (by simp)
    refine ⟨⟨(valLE_iff a b).mp hab, (valLE_iff b c).mp hbc⟩, ?_, ?_⟩
    · intro hineq
      have hcond : decLE (decAddExact (toDec a) (toDec b)) (toDec c) = true := by
        rw [decLE_iff, decToQ_addExact]
        exact hineq
      simp only [triangleInitAC, h]
      rw [if_pos hlen]
      simp only [hs]
      rw [show [a, b, c].getD 0 (PyVal.vInt 0) = a from rfl,
        show [a, b, c].getD 1 (PyVal.vInt 0) = b from rfl,
        show [a, b, c].getD 2 (PyVal.vInt 0) = c from rfl, if_pos hcond]
    · intro hlt
      have hcond : decLE (decAddExact (toDec a) (toDec b)) (toDec c) = false := by
        have hne : ¬ decLE (decAddExact (toDec a) (toDec b)) (toDec c) = true := by
          rw [decLE_iff, decToQ_addExact]
          exact not_le.mpr hlt
        simpa using hne
      simp only [triangleInitAC, h]
      rw [if_pos hlen]
      simp only [hs]
      rw [show [a, b, c].getD 0 (PyVal.vInt 0) = a from rfl,
        show [a, b, c].getD 1 (PyVal.vInt 0) = b from rfl,
        show [a, b, c].getD 2 (PyVal.vInt 0) = c from rfl, if_neg (by simp [hcond])]

/-- Claim C7 witness: `Triangle(1,2,10)` passes base validation, its sorted
sides are `[1,2,10]` with `1 + 2 <= 10`, and construction fails with the
degenerate-shape error through the general statement. -/
theorem claimC7_witness :
    figureBaseInit [.vInt 1, .vInt 2, .vInt 10] [] =
      .ok ⟨[.vInt 1, .vInt 2, .vInt 10], [], none⟩ ∧
    triangleInitAC [.vInt 1, .vInt 2, .vInt 10] =
      .error (.valueError "Triangle is not valid: sum of two sides must be greater than third.") := by
  refine ⟨by decide, ?_⟩
  have happ := (claimC7 [.vInt 1, .vInt 2, .vInt 10] ⟨[.vInt 1, .vInt 2, .vInt 10], [], none⟩
    (by decide)).2.1 (.vInt 1) (.vInt 2) (.vInt 10) (by decide)
  refine happ.2.1 ?_
  have hd := (decLE_iff (decAddExact (toDec (.vInt 1)) (toDec (.vInt 2))) (toDec (.vInt 10))).mp
    (by decide)
  rwa [decToQ_addExact] at hd

/-- Claim C8: the claim says a figure constructed with at least one
`Decimal` parameter stores all parameters upgraded to `Decimal` and that
`area()` of such a mixed-precision triangle returns a `Decimal`.  The
upgrade part holds (first two conjuncts: `Triangle(Decimal(2), 3, 4)`
stores three `Decimal` sides); the `area()` part is broken by the
`detect_decimal` bug: the call raises `AttributeError` instead of returning
a `Decimal` (last conjunct), so the claim describes the intent and the code
deviates at `area()`. -/
theorem claimC8 :
    triangleInitAC [.vDec ⟨2, 0⟩, .vInt 3, .vInt 4] =
      .ok ⟨⟨[.vDec ⟨2, 0⟩, .vDec ⟨3, 0⟩, .vDec ⟨4, 0⟩], [], some (.vInt 100)⟩,
           [.vDec ⟨2, 0⟩, .vDec ⟨3, 0⟩, .vDec ⟨4, 0⟩]⟩ ∧
    [PyVal.vDec ⟨2, 0⟩, .vDec ⟨3, 0⟩, .vDec ⟨4, 0⟩].all isDec = true ∧
    triangleAreaAC ⟨⟨[.vDec ⟨2, 0⟩, .vDec ⟨3, 0⟩, .vDec ⟨4, 0⟩], [], some (.vInt 100)⟩,
      [.vDec ⟨2, 0⟩, .vDec ⟨3, 0⟩, .vDec ⟨4, 0⟩]⟩ = .error (.attributeError triangleAttrErrMsg) := by
  decide

/-- Claim C9: the claim says `Triangle(p(a),p(b),p(c)).area()` equals Heron's
formula independent of input order.  Construction is indeed
permutation-invariant in the stored sides (the constructor sorts:
`Triangle(5,3,4)` and `Triangle(3,4,5)` both store `[3,4,5]`), and the
stateless Heron formula at these sides squares to 36 (area 6), but `area()`
itself raises `AttributeError` (the `detect_decimal` bug), so the claim
describes the intent and the code fails at the failing input
`Triangle(3,4,5).area()`. -/
theorem claimC9 :
    triangleInitAC [.vInt 5, .vInt 3, .vInt 4] =
      .ok ⟨⟨[.vInt 5, .vInt 3, .vInt 4], [], none⟩, [.vInt 3, .vInt 4, .vInt 5]⟩ ∧
    triangleInitAC [.vInt 3, .vInt 4, .vInt 5] =
      .ok ⟨⟨[.vInt 3, .vInt 4, .vInt 5], [], none⟩, [.vInt 3, .vInt 4, .vInt 5]⟩ ∧
    triangleAreaAC ⟨⟨[.vInt 5, .vInt 3, .vInt 4], [], none⟩, [.vInt 3, .vInt 4, .vInt 5]⟩ =
      .error (.attributeError triangleAttrErrMsg) ∧
    decToQ (squared_herons_area [⟨3, 0⟩, ⟨4, 0⟩, ⟨5, 0⟩]
      (decDiv (decSumExact [⟨3, 0⟩, ⟨4, 0⟩, ⟨5, 0⟩]) ⟨2, 0⟩)) = 36 := by
  refine ⟨by decide, by decide, by decide, ?_⟩
  rw [show squared_herons_area [⟨3, 0⟩, ⟨4, 0⟩, ⟨5, 0⟩]
      (decDiv (decSumExact [⟨3, 0⟩, ⟨4, 0⟩, ⟨5, 0⟩]) ⟨2, 0⟩) = (⟨360000, -4⟩ : Dec) from by decide,
    show ((-4 : ℤ)) = -((4 : ℕ) : ℤ) from rfl, decToQ_negExp]
  norm_num

/-- Claim C10: for a triangle with stored sides `[a, b, c]` (the constructor
sorts ascending), `is_right` returns true iff `a^2 + b^2` approximately
equals `c^2` under the closeness check with relative tolerance `1e-9` and
absolute tolerance `0.0` (stated through the spec-worded predicate
`specClose`, never exact equality); in particular `Triangle(3,4,5)` is
right and `Triangle(5,12,11)` (stored sorted as `[5,11,12]`) is not. -/
theorem claimC10 :
    (∀ (t : TriState) (a b c : PyVal), t.sides = [a, b, c] →
      (is_right t = true ↔
        specClose (decToQ (toDec a) * decToQ (toDec a) + decToQ (toDec b) * decToQ (toDec b))
          (decToQ (toDec c) * decToQ (toDec c)))) ∧
    triangleInitAC [.vInt 3, .vInt 4, .vInt 5] =
      .ok ⟨⟨[.vInt 3, .vInt 4, .vInt 5], [], none⟩, [.vInt 3, .vInt 4, .vInt 5]⟩ ∧
    is_right ⟨⟨[.vInt 3, .vInt 4, .vInt 5], [], none⟩, [.vInt 3, .vInt 4, .vInt 5]⟩ = true ∧
    triangleInitAC [.vInt 5, .vInt 12, .vInt 11] =
      .ok ⟨⟨[.vInt 5, .vInt 12, .vInt 11], [], none⟩, [.vInt 5, .vInt 11, .vInt 12]⟩ ∧
    is_right ⟨⟨[.vInt 5, .vInt 12, .vInt 11], [], none⟩, [.vInt 5, .vInt 11, .vInt 12]⟩ = false := by
  refine ⟨?_, by decide, by decide, by decide, by decide⟩
  intro t a b c h
  unfold is_right
  rw [h]
  rw [show [a, b, c].getD 0 (PyVal.vInt 0) = a from rfl,
    show [a, b, c].getD 1 (PyVal.vInt 0) = b from rfl,
    show [a, b, c].getD 2 (PyVal.vInt 0) = c from rfl,
    isclose_iff_specClose, decToQ_addExact]
  unfold decSq
  rw [decToQ_mulExact, decToQ_mulExact, decToQ_mulExact]

/-- Claim C10 witness: applying the general statement to the constructed
`Triangle(3,4,5)` shows the Pythagorean closeness holds at `(3,4,5)`. -/
theorem claimC10_witness :
    specClose
      (decToQ (toDec (.vInt 3)) * decToQ (toDec (.vInt 3)) +
        decToQ (toDec (.vInt 4)) * decToQ (toDec (.vInt 4)))
      (decToQ (toDec (.vInt 5)) * decToQ (toDec (.vInt 5))) :=
  (claimC10.1 ⟨⟨[.vInt 3, .vInt 4, .vInt 5], [], none⟩, [.vInt 3, .vInt 4, .vInt 5]⟩
    (.vInt 3) (.vInt 4) (.vInt 5) rfl).mp (by decide)

end AreaCalc
